import Mathlib

/-
Verification of the soroban-tools RPC client (src/cmd/soroban-cli/src/rpc/mod.rs).

Shallow embedding notes:
- The external collaborators (the HTTP JSON-RPC transport and the XDR codec) are
  modelled as oracle functions passed to each operation: a submission oracle, a
  status-query oracle indexed by the poll number, and an elapsed-clock oracle
  giving the whole-second value of `start.elapsed().as_secs()` observed at each
  loop iteration.  Transport-level and XDR-level failures are opaque strings.
- The polling loop of `send_transaction` (mod.rs lines 185-208) is embedded as a
  fuel-indexed recursion `pollLoop`; fuel exhaustion yields `none`, everything
  the real loop can do yields `some outcome`.  Alongside the outcome the model
  returns the trace of transaction ids passed to getTransactionStatus, so the
  number of polls issued is the length of that trace.
- `get_events` (mod.rs lines 244-282) builds its parameter object with
  `serde_json::Map` (a BTreeMap by default) for the filter and pagination
  objects and an explicit `collections::BTreeMap` for the outer object, so both
  serialize with keys in sorted (byte-lexicographic) order.  The embedding
  models such a map as an association list kept sorted by `mapInsert`.
-/

namespace SorobanRpc

/-- The Error enum of mod.rs lines 12-28; XDR, JSON-RPC and serde payloads are
opaque strings. -/
inductive Error where
  | Xdr : String → Error
  | JsonRpc : String → Error
  | Serde : String → Error
  | TransactionSubmissionFailed : Error
  | UnexpectedTransactionStatus : String → Error
  | TransactionSubmissionTimeout : Error
  | TransactionSimulationFailed : String → Error
deriving DecidableEq, Repr

/-- SendTransactionResponse, mod.rs lines 40-44. -/
structure SendTransactionResponse where
  id : String
  status : String
deriving DecidableEq, Repr

/-- TransactionStatusResult, mod.rs lines 47-49. -/
structure TransactionStatusResult where
  xdr : String
deriving DecidableEq, Repr

/-- GetTransactionStatusResponse, mod.rs lines 53-72. -/
structure GetTransactionStatusResponse where
  id : String
  status : String
  envelope_xdr : Option String
  result_xdr : Option String
  result_meta_xdr : Option String
  results : List TransactionStatusResult
deriving DecidableEq, Repr

/-- Cost, mod.rs lines 90-95. -/
structure Cost where
  cpu_insns : String
  mem_bytes : String
deriving DecidableEq, Repr

/-- SimulateTransactionResponse, mod.rs lines 97-103. -/
structure SimulateTransactionResponse where
  footprint : String
  cost : Cost
  error : Option String
deriving DecidableEq, Repr

/-- EventType, mod.rs lines 131-136. -/
inductive EventType where
  | All
  | Contract
  | System
deriving DecidableEq, Repr

/-- One iteration of the polling loop of send_transaction, mod.rs lines
185-208, iterated over the remaining fuel.  `query k id` is the result of the
k-th `get_transaction_status(&id)` call (a transport/decode Error or a decoded
response), `elapsed k` is `start.elapsed().as_secs()` as observed after the
k-th poll.  Returns the outcome (`none` when fuel runs out before the loop
decides) together with the list of ids passed to the status query, one entry
per poll issued. -/
def pollLoop (query : Nat → String → Except Error GetTransactionStatusResponse)
    (elapsed : Nat → Nat) (id : String) :
    Nat → Nat → Option (Except Error (List TransactionStatusResult)) × List String
  | 0, _ => (none, [])
  | fuel + 1, k =>
    match query k id with
    | .error e => (some (.error e), [id])
    | .ok response =>
      if response.status = "success" then
        (some (.ok response.results), [id])
      else if response.status = "error" then
        (some (.error .TransactionSubmissionFailed), [id])
      else if response.status = "pending" then
        if elapsed k > 10 then
          (some (.error .TransactionSubmissionTimeout), [id])
        else
          ((pollLoop query elapsed id fuel (k + 1)).1,
            id :: (pollLoop query elapsed id fuel (k + 1)).2)
      else
        (some (.error (.UnexpectedTransactionStatus response.status)), [id])

/-- Client::send_transaction, mod.rs lines 168-209.  `encoded` is the result of
`tx.to_xdr_base64()` (an XdrError or the base64 string); `submit` is the
sendTransaction transport call, whose failure detail the source discards with
`map_err(|_| Error::TransactionSubmissionFailed)`; the remaining oracles feed
`pollLoop`.  Returns the outcome together with the trace of ids polled. -/
def send_transaction (encoded : Except String String)
    (submit : String → Except String SendTransactionResponse)
    (query : Nat → String → Except Error GetTransactionStatusResponse)
    (elapsed : Nat → Nat) (fuel : Nat) :
    Option (Except Error (List TransactionStatusResult)) × List String :=
  match encoded with
  | .error e => (some (.error (.Xdr e)), [])
  | .ok txBase64 =>
    match submit txBase64 with
    | .error _ => (some (.error .TransactionSubmissionFailed), [])
    | .ok ack =>
      if ack.status = "error" then
        (some (.error .TransactionSubmissionFailed), [])
      else
        pollLoop query elapsed ack.id fuel 0

/-- Client::simulate_transaction, mod.rs lines 211-224.  `transport` is the
simulateTransaction call, returning a transport/decode failure or the decoded
response. -/
def simulate_transaction (encoded : Except String String)
    (transport : String → Except String SimulateTransactionResponse) :
    Except Error SimulateTransactionResponse :=
  match encoded with
  | .error e => .error (.Xdr e)
  | .ok base64Tx =>
    match transport base64Tx with
    | .error e => .error (.JsonRpc e)
    | .ok response =>
      match response.error with
      | none => .ok response
      | some e => .error (.TransactionSimulationFailed e)

/-- JSON values, as far as the getEvents parameter object needs them.  An
object is an association list in serialization order. -/
inductive Json where
  | str : String → Json
  | num : Nat → Json
  | arr : List Json → Json
  | obj : List (String × Json) → Json

deriving instance DecidableEq for Except

/-- Insertion into a BTreeMap<String, Json>, keeping the association list
sorted by key (byte-lexicographic order, as Rust's Ord for strings). -/
def mapInsert (k : String) (v : Json) : List (String × Json) → List (String × Json)
  | [] => [(k, v)]
  | (k', v') :: rest =>
    match compare k k' with
    | .lt => (k, v) :: (k', v') :: rest
    | .eq => (k, v) :: rest
    | .gt => (k', v') :: mapInsert k v rest

/-- Key lookup in an association-list map. -/
def mapGet (k : String) : List (String × Json) → Option Json
  | [] => none
  | (k', v) :: rest => if k = k' then some v else mapGet k rest

/-- The filter object built by Client::get_events, mod.rs lines 253-264:
optionally a "type" key (All contributes nothing), then "topics", then
"contractIds", in a serde_json::Map (sorted keys). -/
def getEventsFilter (event_type : Option EventType)
    (contract_ids : List String) (topics : List String) : List (String × Json) :=
  let filters : List (String × Json) := []
  let filters :=
    match event_type.bind (fun t =>
        match t with
        | EventType.All => none
        | EventType.Contract => some "contract"
        | EventType.System => some "system") with
    | none => filters
    | some t => mapInsert "type" (.str t) filters
  let filters := mapInsert "topics" (.arr (topics.map Json.str)) filters
  mapInsert "contractIds" (.arr (contract_ids.map Json.str)) filters

/-- The pagination object built by Client::get_events, mod.rs lines 266-269:
a "limit" key only when a limit was supplied. -/
def getEventsPagination (limit : Option Nat) : List (String × Json) :=
  match limit with
  | none => []
  | some l => mapInsert "limit" (.num l) []

/-- The outer parameter object built by Client::get_events, mod.rs lines
272-276: a collections::BTreeMap receiving startLedger and endLedger as
decimal strings, the single-element filters list, and the pagination object. -/
def getEventsParams (start_ledger : Nat) (end_ledger : Nat)
    (event_type : Option EventType) (contract_ids : List String)
    (topics : List String) (limit : Option Nat) : List (String × Json) :=
  let object : List (String × Json) := []
  let object := mapInsert "startLedger" (.str (toString start_ledger)) object
  let object := mapInsert "endLedger" (.str (toString end_ledger)) object
  let object := mapInsert "filters"
    (.arr [.obj (getEventsFilter event_type contract_ids topics)]) object
  mapInsert "pagination" (.obj (getEventsPagination limit)) object

/-- Whether a status-query result is a decoded response with status pending. -/
def pendingOk : Except Error GetTransactionStatusResponse → Bool
  | .ok r => r.status == "pending"
  | .error _ => false

/-- A pendingOk result is a decoded response whose status is pending. -/
theorem pendingOk_elim {q : Except Error GetTransactionStatusResponse}
    (h : pendingOk q = true) : ∃ r, q = .ok r ∧ r.status = "pending" := by
  cases q with
  | error e => simp [pendingOk] at h
  | ok r => exact ⟨r, rfl, by simpa [pendingOk] using h⟩

/-- Running the loop across N consecutive polls that answer pending within the
time ceiling just extends the trace by N ids and moves the poll index up by
N. -/
theorem pollLoop_pending_skip
    (query : Nat → String → Except Error GetTransactionStatusResponse)
    (elapsed : Nat → Nat) (id : String) (N f k : Nat)
    (hp : ∀ j, j < N → pendingOk (query (k + j) id) = true ∧ elapsed (k + j) ≤ 10) :
    pollLoop query elapsed id (N + f) k =
      ((pollLoop query elapsed id f (k + N)).1,
        List.replicate N id ++ (pollLoop query elapsed id f (k + N)).2) := by
  induction N generalizing k with
  | zero => simp
  | succ n ih =>
    obtain ⟨hpend, htime⟩ := hp 0 (Nat.succ_pos n)
    rw [Nat.add_zero] at hpend htime
    obtain ⟨r, hq, hst⟩ := pendingOk_elim hpend
    have hfuel : n + 1 + f = (n + f) + 1 := by omega
    rw [hfuel]
    simp only [pollLoop, hq, hst]
    rw [if_pos trivial]
    rw [if_neg (by omega : ¬ elapsed k > 10)]
    have hp' : ∀ j, j < n →
        pendingOk (query (k + 1 + j) id) = true ∧ elapsed (k + 1 + j) ≤ 10 := by
      intro j hj
      have h := hp (j + 1) (by omega)
      have harith : k + (j + 1) = k + 1 + j := by omega
      rwa [harith] at h
    rw [ih (k + 1) hp']
    have harith2 : k + (n + 1) = k + 1 + n := by omega
    rw [harith2, List.replicate_succ]
    simp

/-- Claim C1: for a status sequence of N pending responses followed by a
success response, send_transaction issues exactly N+1 status polls and
returns Ok with exactly the results field of the success response. -/
theorem send_transaction_pending_then_success
    (submit : String → Except String SendTransactionResponse)
    (query : Nat → String → Except Error GetTransactionStatusResponse)
    (elapsed : Nat → Nat) (txXdr : String) (ack : SendTransactionResponse)
    (N f : Nat) (r : GetTransactionStatusResponse)
    (hsub : submit txXdr = .ok ack)
    (hack : ack.status ≠ "error")
    (hp : ∀ j, j < N → pendingOk (query j ack.id) = true ∧ elapsed j ≤ 10)
    (hN : query N ack.id = .ok r) (hr : r.status = "success") :
    send_transaction (.ok txXdr) submit query elapsed (N + (f + 1)) =
      (some (.ok r.results), List.replicate (N + 1) ack.id) := by
  have hp0 : ∀ j, j < N →
      pendingOk (query (0 + j) ack.id) = true ∧ elapsed (0 + j) ≤ 10 := by
    intro j hj; simpa using hp j hj
  have hskip := pollLoop_pending_skip query elapsed ack.id N (f + 1) 0 hp0
  simp only [send_transaction, hsub]
  rw [if_neg hack, hskip]
  have hlast : pollLoop query elapsed ack.id (f + 1) (0 + N) =
      (some (.ok r.results), [ack.id]) := by
    rw [Nat.zero_add]
    simp only [pollLoop, hN, hr]
    rw [if_pos trivial]
  rw [hlast, List.replicate_succ']

/-- Unfolding send_transaction across N pending polls: after a successful
submission whose acknowledgment is not an error, the run is the run of the
loop from poll N, with N ids prepended to the trace. -/
theorem send_transaction_unfold
    (submit : String → Except String SendTransactionResponse)
    (query : Nat → String → Except Error GetTransactionStatusResponse)
    (elapsed : Nat → Nat) (txXdr : String) (ack : SendTransactionResponse)
    (N f : Nat)
    (hsub : submit txXdr = .ok ack)
    (hack : ack.status ≠ "error")
    (hp : ∀ j, j < N → pendingOk (query j ack.id) = true ∧ elapsed j ≤ 10) :
    send_transaction (.ok txXdr) submit query elapsed (N + f) =
      ((pollLoop query elapsed ack.id f N).1,
        List.replicate N ack.id ++ (pollLoop query elapsed ack.id f N).2) := by
  have hp0 : ∀ j, j < N →
      pendingOk (query (0 + j) ack.id) = true ∧ elapsed (0 + j) ≤ 10 := by
    intro j hj; simpa using hp j hj
  have hskip := pollLoop_pending_skip query elapsed ack.id N f 0 hp0
  simp only [send_transaction, hsub]
  rw [if_neg hack, hskip, Nat.zero_add]

/-- Claim C2: an error acknowledgment (or a failed submission transport call)
yields the submission-failed error with zero status polls; an error status at
poll N after N pending polls yields the submission-failed error after exactly
N+1 polls. -/
theorem send_transaction_error_outcomes :
    (∀ (submit : String → Except String SendTransactionResponse)
        (query : Nat → String → Except Error GetTransactionStatusResponse)
        (elapsed : Nat → Nat) (fuel : Nat) (txXdr e : String),
        submit txXdr = .error e →
        send_transaction (.ok txXdr) submit query elapsed fuel =
          (some (.error .TransactionSubmissionFailed), [])) ∧
    (∀ (submit : String → Except String SendTransactionResponse)
        (query : Nat → String → Except Error GetTransactionStatusResponse)
        (elapsed : Nat → Nat) (fuel : Nat) (txXdr : String)
        (ack : SendTransactionResponse),
        submit txXdr = .ok ack → ack.status = "error" →
        send_transaction (.ok txXdr) submit query elapsed fuel =
          (some (.error .TransactionSubmissionFailed), [])) ∧
    (∀ (submit : String → Except String SendTransactionResponse)
        (query : Nat → String → Except Error GetTransactionStatusResponse)
        (elapsed : Nat → Nat) (txXdr : String) (ack : SendTransactionResponse)
        (N f : Nat) (r : GetTransactionStatusResponse),
        submit txXdr = .ok ack → ack.status ≠ "error" →
        (∀ j, j < N → pendingOk (query j ack.id) = true ∧ elapsed j ≤ 10) →
        query N ack.id = .ok r → r.status = "error" →
        send_transaction (.ok txXdr) submit query elapsed (N + (f + 1)) =
          (some (.error .TransactionSubmissionFailed),
            List.replicate (N + 1) ack.id)) := by
  refine ⟨?_, ?_, ?_⟩
  · intro submit query elapsed fuel txXdr e hsub
    simp only [send_transaction, hsub]
  · intro submit query elapsed fuel txXdr ack hsub hst
    simp only [send_transaction, hsub]
    rw [if_pos hst]
  · intro submit query elapsed txXdr ack N f r hsub hack hp hN hr
    rw [send_transaction_unfold submit query elapsed txXdr ack N (f + 1) hsub hack hp]
    have hsuc : ¬(r.status = "success") := by rw [hr]; decide
    have hlast : pollLoop query elapsed ack.id (f + 1) N =
        (some (.error .TransactionSubmissionFailed), [ack.id]) := by
      simp only [pollLoop, hN]
      rw [if_neg hsuc, if_pos hr]
    rw [hlast, List.replicate_succ']

/-- Claim C3: a status-poll response whose status lies outside the set of
pending, success and error terminates send_transaction at once with the
unexpected-transaction-status error carrying that literal status string. -/
theorem send_transaction_unexpected_status
    (submit : String → Except String SendTransactionResponse)
    (query : Nat → String → Except Error GetTransactionStatusResponse)
    (elapsed : Nat → Nat) (txXdr : String) (ack : SendTransactionResponse)
    (N f : Nat) (r : GetTransactionStatusResponse)
    (hsub : submit txXdr = .ok ack)
    (hack : ack.status ≠ "error")
    (hp : ∀ j, j < N → pendingOk (query j ack.id) = true ∧ elapsed j ≤ 10)
    (hN : query N ack.id = .ok r)
    (hsuc : r.status ≠ "success") (herr : r.status ≠ "error")
    (hpend : r.status ≠ "pending") :
    send_transaction (.ok txXdr) submit query elapsed (N + (f + 1)) =
      (some (.error (.UnexpectedTransactionStatus r.status)),
        List.replicate (N + 1) ack.id) := by
  rw [send_transaction_unfold submit query elapsed txXdr ack N (f + 1) hsub hack hp]
  have hlast : pollLoop query elapsed ack.id (f + 1) N =
      (some (.error (.UnexpectedTransactionStatus r.status)), [ack.id]) := by
    simp only [pollLoop, hN]
    rw [if_neg hsuc, if_neg herr, if_neg hpend]
  rw [hlast, List.replicate_succ']

/-- Claim C4: after a pending observation whose elapsed whole-second clock
exceeds the 10-second ceiling, send_transaction terminates with the timeout
error and issues no further status polls. -/
theorem send_transaction_timeout
    (submit : String → Except String SendTransactionResponse)
    (query : Nat → String → Except Error GetTransactionStatusResponse)
    (elapsed : Nat → Nat) (txXdr : String) (ack : SendTransactionResponse)
    (N f : Nat) (r : GetTransactionStatusResponse)
    (hsub : submit txXdr = .ok ack)
    (hack : ack.status ≠ "error")
    (hp : ∀ j, j < N → pendingOk (query j ack.id) = true ∧ elapsed j ≤ 10)
    (hN : query N ack.id = .ok r) (hr : r.status = "pending")
    (ht : elapsed N > 10) :
    send_transaction (.ok txXdr) submit query elapsed (N + (f + 1)) =
      (some (.error .TransactionSubmissionTimeout),
        List.replicate (N + 1) ack.id) := by
  rw [send_transaction_unfold submit query elapsed txXdr ack N (f + 1) hsub hack hp]
  have hsuc : ¬(r.status = "success") := by rw [hr]; decide
  have herr : ¬(r.status = "error") := by rw [hr]; decide
  have hlast : pollLoop query elapsed ack.id (f + 1) N =
      (some (.error .TransactionSubmissionTimeout), [ack.id]) := by
    simp only [pollLoop, hN]
    rw [if_neg hsuc, if_neg herr, if_pos hr, if_pos ht]
  rw [hlast, List.replicate_succ']

/-- Claim C10: a transport or decode failure on a status poll propagates to
the caller unchanged and aborts the loop at once, whereas a failure of the
initial sendTransaction call is collapsed into the submission-failed error
with its transport detail discarded. -/
theorem send_transaction_poll_error_propagation :
    (∀ (submit : String → Except String SendTransactionResponse)
        (query : Nat → String → Except Error GetTransactionStatusResponse)
        (elapsed : Nat → Nat) (txXdr : String) (ack : SendTransactionResponse)
        (N f : Nat) (e : Error),
        submit txXdr = .ok ack → ack.status ≠ "error" →
        (∀ j, j < N → pendingOk (query j ack.id) = true ∧ elapsed j ≤ 10) →
        query N ack.id = .error e →
        send_transaction (.ok txXdr) submit query elapsed (N + (f + 1)) =
          (some (.error e), List.replicate (N + 1) ack.id)) ∧
    (∀ (submit : String → Except String SendTransactionResponse)
        (query : Nat → String → Except Error GetTransactionStatusResponse)
        (elapsed : Nat → Nat) (fuel : Nat) (txXdr e : String),
        submit txXdr = .error e →
        send_transaction (.ok txXdr) submit query elapsed fuel =
          (some (.error .TransactionSubmissionFailed), [])) := by
  constructor
  · intro submit query elapsed txXdr ack N f e hsub hack hp hN
    rw [send_transaction_unfold submit query elapsed txXdr ack N (f + 1) hsub hack hp]
    have hlast : pollLoop query elapsed ack.id (f + 1) N =
        (some (.error e), [ack.id]) := by
      simp only [pollLoop, hN]
    rw [hlast, List.replicate_succ']
  · intro submit query elapsed fuel txXdr e hsub
    simp only [send_transaction, hsub]

/-- With at least one unit of fuel the loop issues at least one poll. -/
theorem pollLoop_len_pos
    (query : Nat → String → Except Error GetTransactionStatusResponse)
    (elapsed : Nat → Nat) (id : String) (f k : Nat) :
    1 ≤ (pollLoop query elapsed id (f + 1) k).2.length := by
  simp only [pollLoop]
  cases hq : query k id with
  | error e => simp
  | ok r =>
    by_cases h1 : r.status = "success"
    · simp [h1]
    · by_cases h2 : r.status = "error"
      · simp [h1, h2]
      · by_cases h3 : r.status = "pending"
        · by_cases h4 : elapsed k > 10 <;> simp [h1, h2, h3, h4]
        · simp [h1, h2, h3]

/-- Every id the loop passes to the status query is the id it was given. -/
theorem pollLoop_trace_id
    (query : Nat → String → Except Error GetTransactionStatusResponse)
    (elapsed : Nat → Nat) (id : String) : ∀ (fuel k : Nat),
    ((pollLoop query elapsed id fuel k).2.all (fun s => s == id)) = true := by
  intro fuel
  induction fuel with
  | zero => intro k; simp [pollLoop]
  | succ f ih =>
    intro k
    simp only [pollLoop]
    cases hq : query k id with
    | error e => simp
    | ok r =>
      by_cases h1 : r.status = "success"
      · simp [h1]
      · by_cases h2 : r.status = "error"
        · simp [h1, h2]
        · by_cases h3 : r.status = "pending"
          · by_cases h4 : elapsed k > 10
            · simp [h1, h2, h3, h4]
            · simp only [h1, h2, h3, h4, if_neg, if_pos, if_false, if_true]
              simp [ih (k + 1)]
          · simp [h1, h2, h3]

/-- A success outcome of the loop always stems from some status-query
response whose status is success, and carries that response's results. -/
theorem pollLoop_success_src
    (query : Nat → String → Except Error GetTransactionStatusResponse)
    (elapsed : Nat → Nat) (id : String) : ∀ (fuel k : Nat)
    (rs : List TransactionStatusResult),
    (pollLoop query elapsed id fuel k).1 = some (.ok rs) →
    ∃ j r, query j id = .ok r ∧ r.status = "success" ∧ rs = r.results := by
  intro fuel
  induction fuel with
  | zero => intro k rs h; simp [pollLoop] at h
  | succ f ih =>
    intro k rs h
    simp only [pollLoop] at h
    cases hq : query k id with
    | error e => simp [hq] at h
    | ok r =>
      simp only [hq] at h
      by_cases h1 : r.status = "success"
      · rw [if_pos h1] at h
        simp at h
        exact ⟨k, r, hq, h1, h.symm⟩
      · rw [if_neg h1] at h
        by_cases h2 : r.status = "error"
        · rw [if_pos h2] at h; simp at h
        · rw [if_neg h2] at h
          by_cases h3 : r.status = "pending"
          · rw [if_pos h3] at h
            by_cases h4 : elapsed k > 10
            · rw [if_pos h4] at h; simp at h
            · rw [if_neg h4] at h
              exact ih (k + 1) rs h
          · rw [if_neg h3] at h; simp at h

/-- If the loop decides while the last issued poll observed pending, the
decision is the timeout error. -/
theorem pollLoop_last_pending
    (query : Nat → String → Except Error GetTransactionStatusResponse)
    (elapsed : Nat → Nat) (id : String) : ∀ (fuel k : Nat)
    (out : Except Error (List TransactionStatusResult)),
    (pollLoop query elapsed id fuel k).1 = some out →
    pendingOk (query (k + (pollLoop query elapsed id fuel k).2.length - 1) id)
      = true →
    out = .error .TransactionSubmissionTimeout := by
  intro fuel
  induction fuel with
  | zero => intro k out h; simp [pollLoop] at h
  | succ f ih =>
    intro k out h hpend
    simp only [pollLoop] at h hpend
    cases hq : query k id with
    | error e =>
      simp only [hq] at h hpend
      simp at hpend
      rw [hq] at hpend
      simp [pendingOk] at hpend
    | ok r =>
      simp only [hq] at h hpend
      by_cases h1 : r.status = "success"
      · rw [if_pos h1] at h hpend
        simp at hpend
        rw [hq] at hpend
        simp [pendingOk, h1] at hpend
      · rw [if_neg h1] at h hpend
        by_cases h2 : r.status = "error"
        · rw [if_pos h2] at h hpend
          simp at hpend
          rw [hq] at hpend
          simp [pendingOk, h2] at hpend
        · rw [if_neg h2] at h hpend
          by_cases h3 : r.status = "pending"
          · rw [if_pos h3] at h hpend
            by_cases h4 : elapsed k > 10
            · rw [if_pos h4] at h
              simp at h
              exact h.symm
            · rw [if_neg h4] at h hpend
              cases f with
              | zero => simp [pollLoop] at h
              | succ f' =>
                have hlen := pollLoop_len_pos query elapsed id f' (k + 1)
                have harith :
                    k + (id :: (pollLoop query elapsed id (f' + 1) (k + 1)).2).length - 1
                      = k + 1 + (pollLoop query elapsed id (f' + 1) (k + 1)).2.length
                        - 1 := by
                  simp only [List.length_cons]
                  omega
                rw [harith] at hpend
                exact ih (k + 1) out h hpend
          · rw [if_neg h3] at h hpend
            simp at hpend
            rw [hq] at hpend
            simp [pendingOk, h3] at hpend

/-- Claim C5: a non-error acknowledgment does not short-circuit: with fuel to
run at all, at least one status poll is issued, and a success outcome's
result entries always come from a status-query response whose status is
success, never from the acknowledgment. -/
theorem send_transaction_no_ack_short_circuit :
    (∀ (submit : String → Except String SendTransactionResponse)
        (query : Nat → String → Except Error GetTransactionStatusResponse)
        (elapsed : Nat → Nat) (fuel : Nat) (txXdr : String)
        (ack : SendTransactionResponse),
        submit txXdr = .ok ack → ack.status ≠ "error" → 1 ≤ fuel →
        1 ≤ (send_transaction (.ok txXdr) submit query elapsed fuel).2.length) ∧
    (∀ (submit : String → Except String SendTransactionResponse)
        (query : Nat → String → Except Error GetTransactionStatusResponse)
        (elapsed : Nat → Nat) (fuel : Nat) (txXdr : String)
        (ack : SendTransactionResponse) (rs : List TransactionStatusResult),
        submit txXdr = .ok ack → ack.status ≠ "error" →
        (send_transaction (.ok txXdr) submit query elapsed fuel).1 =
          some (.ok rs) →
        ∃ j r, query j ack.id = .ok r ∧ r.status = "success" ∧
          rs = r.results) := by
  constructor
  · intro submit query elapsed fuel txXdr ack hsub hack hfuel
    obtain ⟨f, rfl⟩ : ∃ f, fuel = f + 1 := ⟨fuel - 1, by omega⟩
    simp only [send_transaction, hsub]
    rw [if_neg hack]
    exact pollLoop_len_pos query elapsed ack.id f 0
  · intro submit query elapsed fuel txXdr ack rs hsub hack h
    simp only [send_transaction, hsub] at h
    rw [if_neg hack] at h
    exact pollLoop_success_src query elapsed ack.id fuel 0 rs h

/-- Claim C6: every status poll of a run uses the unchanged transaction id
returned by the acknowledgment, and no outcome other than the timeout error
is ever produced while the last observed status is pending. -/
theorem send_transaction_id_stable_no_pending_return :
    (∀ (submit : String → Except String SendTransactionResponse)
        (query : Nat → String → Except Error GetTransactionStatusResponse)
        (elapsed : Nat → Nat) (fuel : Nat) (txXdr : String)
        (ack : SendTransactionResponse),
        submit txXdr = .ok ack →
        ((send_transaction (.ok txXdr) submit query elapsed fuel).2.all
          (fun s => s == ack.id)) = true) ∧
    (∀ (submit : String → Except String SendTransactionResponse)
        (query : Nat → String → Except Error GetTransactionStatusResponse)
        (elapsed : Nat → Nat) (fuel : Nat) (txXdr : String)
        (ack : SendTransactionResponse)
        (out : Except Error (List TransactionStatusResult)),
        submit txXdr = .ok ack → ack.status ≠ "error" →
        (send_transaction (.ok txXdr) submit query elapsed fuel).1 = some out →
        pendingOk (query
          ((send_transaction (.ok txXdr) submit query elapsed fuel).2.length - 1)
          ack.id) = true →
        out = .error .TransactionSubmissionTimeout) := by
  constructor
  · intro submit query elapsed fuel txXdr ack hsub
    simp only [send_transaction, hsub]
    by_cases hst : ack.status = "error"
    · rw [if_pos hst]; simp
    · rw [if_neg hst]
      exact pollLoop_trace_id query elapsed ack.id fuel 0
  · intro submit query elapsed fuel txXdr ack out hsub hack h hpend
    simp only [send_transaction, hsub] at h hpend
    rw [if_neg hack] at h hpend
    have hlast := pollLoop_last_pending query elapsed ack.id fuel 0 out h
    rw [Nat.zero_add] at hlast
    exact hlast hpend

/-- Concrete acknowledgment fixture used by witnesses. -/
def ackW : SendTransactionResponse := ⟨"tx1", "success"⟩

/-- Concrete submission oracle that always accepts. -/
def submitW : String → Except String SendTransactionResponse := fun _ => .ok ackW

/-- Concrete pending status response. -/
def pendingRespW : GetTransactionStatusResponse :=
  ⟨"tx1", "pending", none, none, none, []⟩

/-- Concrete success status response with one result entry. -/
def successRespW : GetTransactionStatusResponse :=
  ⟨"tx1", "success", none, none, none, [⟨"AAAA"⟩]⟩

/-- Concrete status oracle: two pendings, then success. -/
def queryW1 : Nat → String → Except Error GetTransactionStatusResponse :=
  fun k _ => if k < 2 then .ok pendingRespW else .ok successRespW

/-- Concrete clock oracle: one second per poll. -/
def elapsedW : Nat → Nat := fun k => k

/-- Concrete submission oracle whose transport call fails. -/
def submitFailW : String → Except String SendTransactionResponse :=
  fun _ => .error "connection refused"

/-- Concrete error acknowledgment. -/
def errAckW : SendTransactionResponse := ⟨"tx1", "error"⟩

/-- Concrete submission oracle answering an error acknowledgment. -/
def submitErrAckW : String → Except String SendTransactionResponse :=
  fun _ => .ok errAckW

/-- Concrete error status response. -/
def errorRespW : GetTransactionStatusResponse :=
  ⟨"tx1", "error", none, none, none, []⟩

/-- Concrete status response with an unknown status string. -/
def unknownRespW : GetTransactionStatusResponse :=
  ⟨"tx1", "unknown", none, none, none, []⟩

/-- Concrete status oracle: one pending, then error. -/
def queryErrW : Nat → String → Except Error GetTransactionStatusResponse :=
  fun k _ => if k < 1 then .ok pendingRespW else .ok errorRespW

/-- Concrete status oracle: one pending, then an unknown status. -/
def queryUnkW : Nat → String → Except Error GetTransactionStatusResponse :=
  fun k _ => if k < 1 then .ok pendingRespW else .ok unknownRespW

/-- Concrete status oracle: always pending. -/
def queryPendW : Nat → String → Except Error GetTransactionStatusResponse :=
  fun _ _ => .ok pendingRespW

/-- Concrete status oracle: one pending, then a transport failure. -/
def queryTransportErrW : Nat → String → Except Error GetTransactionStatusResponse :=
  fun k _ => if k < 1 then .ok pendingRespW else .error (.JsonRpc "gateway down")

/-- Concrete clock oracle past the ceiling from the start. -/
def elapsedBigW : Nat → Nat := fun _ => 100

/-- Witness for claim C1 at N = 2. -/
theorem send_transaction_pending_then_success_witness :
    send_transaction (.ok "tx") submitW queryW1 elapsedW 3 =
      (some (.ok [⟨"AAAA"⟩]), List.replicate 3 "tx1") :=
  send_transaction_pending_then_success submitW queryW1 elapsedW "tx" ackW 2 0
    successRespW rfl (by decide) (by decide) rfl rfl

/-- Witness for claim C2: a failed transport call, an error acknowledgment,
and an error status at the second poll. -/
theorem send_transaction_error_outcomes_witness :
    send_transaction (.ok "tx") submitFailW queryW1 elapsedW 5 =
      (some (.error .TransactionSubmissionFailed), []) ∧
    send_transaction (.ok "tx") submitErrAckW queryW1 elapsedW 5 =
      (some (.error .TransactionSubmissionFailed), []) ∧
    send_transaction (.ok "tx") submitW queryErrW elapsedW 2 =
      (some (.error .TransactionSubmissionFailed), List.replicate 2 "tx1") :=
  ⟨send_transaction_error_outcomes.1 submitFailW queryW1 elapsedW 5 "tx"
      "connection refused" rfl,
    send_transaction_error_outcomes.2.1 submitErrAckW queryW1 elapsedW 5 "tx"
      errAckW rfl rfl,
    send_transaction_error_outcomes.2.2 submitW queryErrW elapsedW "tx" ackW 1 0
      errorRespW rfl (by decide) (by decide) rfl rfl⟩

/-- Witness for claim C3: one pending poll, then the status string unknown. -/
theorem send_transaction_unexpected_status_witness :
    send_transaction (.ok "tx") submitW queryUnkW elapsedW 2 =
      (some (.error (.UnexpectedTransactionStatus "unknown")),
        List.replicate 2 "tx1") :=
  send_transaction_unexpected_status submitW queryUnkW elapsedW "tx" ackW 1 0
    unknownRespW rfl (by decide) (by decide) rfl (by decide) (by decide)
    (by decide)

/-- Witness for claim C4: a pending poll observed with the clock already past
the ceiling. -/
theorem send_transaction_timeout_witness :
    send_transaction (.ok "tx") submitW queryPendW elapsedBigW 1 =
      (some (.error .TransactionSubmissionTimeout), List.replicate 1 "tx1") :=
  send_transaction_timeout submitW queryPendW elapsedBigW "tx" ackW 0 0
    pendingRespW rfl (by decide) (by decide) rfl rfl (by decide)

/-- Witness for claim C10: a transport failure at the second poll propagates
as the JSON-RPC error; a failed submission call collapses to
submission-failed. -/
theorem send_transaction_poll_error_propagation_witness :
    send_transaction (.ok "tx") submitW queryTransportErrW elapsedW 2 =
      (some (.error (.JsonRpc "gateway down")), List.replicate 2 "tx1") ∧
    send_transaction (.ok "tx") submitFailW queryW1 elapsedW 7 =
      (some (.error .TransactionSubmissionFailed), []) :=
  ⟨send_transaction_poll_error_propagation.1 submitW queryTransportErrW elapsedW
      "tx" ackW 1 0 (.JsonRpc "gateway down") rfl (by decide) (by decide) rfl,
    send_transaction_poll_error_propagation.2 submitFailW queryW1 elapsedW 7
      "tx" "connection refused" rfl⟩

/-- Witness for claim C5: two pendings then success issues three polls, and
the returned entries come from the success response. -/
theorem send_transaction_no_ack_short_circuit_witness :
    1 ≤ (send_transaction (.ok "tx") submitW queryW1 elapsedW 3).2.length ∧
    ∃ j r, queryW1 j "tx1" = .ok r ∧ r.status = "success" ∧
      ([⟨"AAAA"⟩] : List TransactionStatusResult) = r.results :=
  ⟨send_transaction_no_ack_short_circuit.1 submitW queryW1 elapsedW 3 "tx" ackW
      rfl (by decide) (by decide),
    send_transaction_no_ack_short_circuit.2 submitW queryW1 elapsedW 3 "tx" ackW
      [⟨"AAAA"⟩] rfl (by decide) (by decide)⟩

/-- Witness for claim C6: a run whose polls all use the acknowledged id, and
a run that decides right after a pending observation, which is a timeout. -/
theorem send_transaction_id_stable_no_pending_return_witness :
    ((send_transaction (.ok "tx") submitW queryW1 elapsedW 3).2.all
      (fun s => s == "tx1")) = true ∧
    (.error .TransactionSubmissionTimeout :
        Except Error (List TransactionStatusResult)) =
      .error .TransactionSubmissionTimeout :=
  ⟨send_transaction_id_stable_no_pending_return.1 submitW queryW1 elapsedW 3
      "tx" ackW rfl,
    send_transaction_id_stable_no_pending_return.2 submitW queryPendW elapsedBigW
      1 "tx" ackW (.error .TransactionSubmissionTimeout) rfl (by decide)
      (by decide) (by decide)⟩

/-- Claim C7: the serialized filter object carries no type key for an absent
or All event kind, carries type contract and type system for the other two
kinds, and always carries topics and contractIds with exactly the given
lists, explicit empty lists included. -/
theorem getEvents_filter_fields :
    (∀ (cids tps : List String),
        mapGet "type" (getEventsFilter none cids tps) = none) ∧
    (∀ (cids tps : List String),
        mapGet "type" (getEventsFilter (some .All) cids tps) = none) ∧
    (∀ (cids tps : List String),
        mapGet "type" (getEventsFilter (some .Contract) cids tps) =
          some (.str "contract")) ∧
    (∀ (cids tps : List String),
        mapGet "type" (getEventsFilter (some .System) cids tps) =
          some (.str "system")) ∧
    (∀ (et : Option EventType) (cids tps : List String),
        mapGet "topics" (getEventsFilter et cids tps) =
          some (.arr (tps.map Json.str))) ∧
    (∀ (et : Option EventType) (cids tps : List String),
        mapGet "contractIds" (getEventsFilter et cids tps) =
          some (.arr (cids.map Json.str))) := by
  refine ⟨fun _ _ => rfl, fun _ _ => rfl, fun _ _ => rfl, fun _ _ => rfl,
    ?_, ?_⟩
  · intro et cids tps
    match et with
    | none => rfl
    | some .All => rfl
    | some .Contract => rfl
    | some .System => rfl
  · intro et cids tps
    match et with
    | none => rfl
    | some .All => rfl
    | some .Contract => rfl
    | some .System => rfl

/-- Counterexample to claim C8 as stated: the outer parameter object is a
BTreeMap, so it serializes its keys in sorted order, which is not the order
startLedger, endLedger, filters, pagination. -/
theorem getEvents_params_key_order_counterexample :
    ¬ ((getEventsParams 100 200 (some .Contract) ["C123"] [] (some 10)).map
        Prod.fst = ["startLedger", "endLedger", "filters", "pagination"]) := by
  decide

/-- Claim C8 amended: the outer parameter object holds exactly the keys
endLedger, filters, pagination, startLedger in sorted order, with the ledger
bounds rendered as decimal strings and filters a single-element list; the
example input produces exactly the example mapping, with the keys of both
objects in sorted order. -/
theorem getEvents_params_shape :
    (∀ (s e : Nat) (et : Option EventType) (cids tps : List String)
        (lim : Option Nat),
        (getEventsParams s e et cids tps lim).map Prod.fst =
          ["endLedger", "filters", "pagination", "startLedger"] ∧
        mapGet "startLedger" (getEventsParams s e et cids tps lim) =
          some (.str (toString s)) ∧
        mapGet "endLedger" (getEventsParams s e et cids tps lim) =
          some (.str (toString e)) ∧
        mapGet "filters" (getEventsParams s e et cids tps lim) =
          some (.arr [.obj (getEventsFilter et cids tps)]) ∧
        mapGet "pagination" (getEventsParams s e et cids tps lim) =
          some (.obj (getEventsPagination lim))) ∧
    getEventsParams 100 200 (some .Contract) ["C123"] [] (some 10) =
      [("endLedger", .str "200"),
       ("filters", .arr [.obj [("contractIds", .arr [.str "C123"]),
                               ("topics", .arr []),
                               ("type", .str "contract")]]),
       ("pagination", .obj [("limit", .num 10)]),
       ("startLedger", .str "100")] :=
  ⟨fun _ _ _ _ _ _ => ⟨rfl, rfl, rfl, rfl, rfl⟩, rfl⟩

/-- Concrete simulation response without a domain error. -/
def simOkRespW : SimulateTransactionResponse := ⟨"fp", ⟨"1", "2"⟩, none⟩

/-- Concrete simulation response carrying a domain error string. -/
def simErrRespW : SimulateTransactionResponse := ⟨"fp", ⟨"1", "2"⟩, some "boom"⟩

/-- Concrete simulation transport answering the error-free response. -/
def simTransportOkW : String → Except String SimulateTransactionResponse :=
  fun _ => .ok simOkRespW

/-- Concrete simulation transport answering the response with an error. -/
def simTransportErrW : String → Except String SimulateTransactionResponse :=
  fun _ => .ok simErrRespW

/-- Claim C9: a decoded simulateTransaction response whose error field is
present yields the simulation-failed error carrying exactly that string, and
a response without one is returned unchanged; the domain failure is never
reported as a transport error. -/
theorem simulate_transaction_error_field :
    (∀ (transport : String → Except String SimulateTransactionResponse)
        (b64 : String) (r : SimulateTransactionResponse),
        transport b64 = .ok r → r.error = none →
        simulate_transaction (.ok b64) transport = .ok r) ∧
    (∀ (transport : String → Except String SimulateTransactionResponse)
        (b64 : String) (r : SimulateTransactionResponse) (e : String),
        transport b64 = .ok r → r.error = some e →
        simulate_transaction (.ok b64) transport =
          .error (.TransactionSimulationFailed e)) := by
  constructor
  · intro transport b64 r htr herr
    simp only [simulate_transaction, htr, herr]
  · intro transport b64 r e htr herr
    simp only [simulate_transaction, htr, herr]

/-- Witness for claim C9: an error-free response passes through unchanged, a
response carrying an error string becomes the simulation-failed error. -/
theorem simulate_transaction_error_field_witness :
    simulate_transaction (.ok "tx") simTransportOkW = .ok simOkRespW ∧
    simulate_transaction (.ok "tx") simTransportErrW =
      .error (.TransactionSimulationFailed "boom") :=
  ⟨simulate_transaction_error_field.1 simTransportOkW "tx" simOkRespW rfl rfl,
    simulate_transaction_error_field.2 simTransportErrW "tx" simErrRespW "boom"
      rfl rfl⟩

end SorobanRpc
